import Mathlib

/-!
Shallow embedding of `src/examples/python/basic_oauth.py`, a Flask demo of
the OAuth 2.0 Authorization Code flow, together with theorems settling the
spec claims about its route handlers.

Modelling conventions:
- The Flask session (a per-browser dict) is a record.  A Python dict key may
  be present with value `None`; where that matters (the `access_token` key,
  written from `token_response.get('access_token')` which may be `None`) the
  field has type `Option (Option String)`: the outer layer is key presence,
  the inner layer is the stored value (`none` = Python `None`).  The other
  keys are only ever written with genuine values, so a single `Option` layer
  suffices for them.
- Query parameters read with `request.args.get` are `Option String`
  (`none` = parameter absent).  Python string truthiness (`if error:`) is
  the predicate `truthy`.
- The outbound `requests.post` call is an oracle
  `post : TokenRequest → Option TokenHttpResponse`; `none` models the call
  raising (connection error, timeout).  `response.json()` failing to parse
  is `TokenHttpResponse.body = none`.
- Decoding the id-token payload (split on a dot, base64url-decode, JSON
  parse, then reading email, name, sub with dict.get) is an oracle
  `decodeIdTokenPayload : String → Option UserClaims`; `none` models any
  exception in that pipeline, `some p` models a successfully decoded
  payload with its three extracted claims.
- `callback` returns the HTTP response, the session as left by the handler
  (Flask persists session mutations on every response, including the 500
  page produced by the except-branch), and the list of outbound POST
  requests made while handling the request.
- Randomness (`generate_state`) and environment configuration are passed in
  as parameters.
-/

namespace BasicOAuth

/-- Configuration mapping OAUTH_CONFIG, populated from environment variables
at start-up and read-only thereafter.  The environment values are modelled
as the strings the process was started with. -/
structure OAuthConfig where
  client_id : String
  client_secret : String
  redirect_uri : String
  authorization_url : String
  token_url : String
  scope : String
deriving DecidableEq, Repr

/-- Decoded identity-claim set stored under the session key user: the
values of payload.get for email, name and sub (each may be Python None). -/
structure UserClaims where
  email : Option String
  name : Option String
  sub : Option String
deriving DecidableEq, Repr

/-- Flask session contents, restricted to the keys this app ever writes.
For access_token the outer Option is key presence and the inner Option is
the stored value, since the code can store Python None under that key. -/
structure Session where
  oauth_state : Option String
  access_token : Option (Option String)
  refresh_token : Option String
  user : Option UserClaims
deriving DecidableEq, Repr

/-- Session with no keys, as produced by session.clear(). -/
def Session.empty : Session :=
  { oauth_state := none, access_token := none, refresh_token := none, user := none }

/-- Python truthiness of an optional string: None and the empty string are
falsy, every other string is truthy. -/
def truthy : Option String → Bool
  | none => false
  | some s => !s.isEmpty

/-- Query parameters of a GET /callback request, each read with
request.args.get. -/
structure Query where
  code : Option String
  state : Option String
  error : Option String
  error_description : Option String
deriving DecidableEq, Repr

/-- HTTP responses the handlers can produce: an HTML page with a status, a
redirect (Flask redirect, status 302), or the two JSON bodies of the
profile route. -/
inductive Response where
  | html (status : Nat) (body : String)
  | redirectTo (location : String)
  | jsonError (status : Nat) (message : String)
  | profileJson (message : String) (user : Option UserClaims)
deriving DecidableEq, Repr

/-- HTTP status code of a response; Flask redirect issues 302 and a bare
dict return is 200. -/
def Response.status : Response → Nat
  | .html s _ => s
  | .redirectTo _ => 302
  | .jsonError s _ => s
  | .profileJson _ _ => 200

/-- An outbound form-encoded POST: target URL and the form fields, in the
order the source builds the token_data dict. -/
structure TokenRequest where
  url : String
  body : List (String × String)
deriving DecidableEq, Repr

/-- JSON body of a token-endpoint response, restricted to the three fields
the code reads with token_response.get. -/
structure TokenBody where
  access_token : Option String
  refresh_token : Option String
  id_token : Option String
deriving DecidableEq, Repr

/-- An HTTP response from the token endpoint: status code, raw text (used
in the diagnostic message), and the parsed JSON body (none when
response.json() raises). -/
structure TokenHttpResponse where
  status_code : Nat
  text : String
  body : Option TokenBody
deriving DecidableEq, Repr

/-- Result of one /callback invocation: the HTTP response, the session as
the handler leaves it, and the outbound POSTs made during the request. -/
structure CallbackResult where
  response : Response
  session : Session
  posts : List TokenRequest
deriving DecidableEq, Repr

/-- Form body the callback builds for the token exchange (the token_data
dict): exactly grant_type, code, redirect_uri, client_id, client_secret. -/
def token_data (cfg : OAuthConfig) (code : String) : TokenRequest :=
  { url := cfg.token_url
    body := [("grant_type", "authorization_code"),
             ("code", code),
             ("redirect_uri", cfg.redirect_uri),
             ("client_id", cfg.client_id),
             ("client_secret", cfg.client_secret)] }

/-- Page text of the 400 authorization-error branch; error_description
falls back exactly like the Python expression using or. -/
def authorizationErrorPage (error error_description : Option String) : String :=
  "Authorization Error - Error: " ++ error.getD "" ++ " - Description: " ++
    (if truthy error_description then error_description.getD ""
     else "No description provided")

/-- Page text of the 403 invalid-state branch. -/
def invalidStatePage : String :=
  "Invalid State Parameter - Possible CSRF attack detected. State mismatch."

/-- Page text of the 500 except-branch, parameterised by the exception
message. -/
def tokenExchangeFailedPage (e : String) : String :=
  "Token Exchange Failed - Error: " ++ e ++
    " - Common causes: code already used; code expired; invalid client credentials; redirect URI mismatch."

/-- Exception message raised on a non-200 token-endpoint status. -/
def non200Message (r : TokenHttpResponse) : String :=
  "Token endpoint returned " ++ toString r.status_code ++ ": " ++ r.text

/-- Handler of GET /login: mints a state value (passed in, since
generate_state is random), stores it under oauth_state, and redirects to
the authorization endpoint carrying the listed parameters. -/
structure LoginResult where
  authParams : List (String × String)
  session : Session
deriving DecidableEq, Repr

/-- Login handler; state is the freshly generated anti-forgery token. -/
def login (cfg : OAuthConfig) (state : String) (s : Session) : LoginResult :=
  { authParams := [("client_id", cfg.client_id),
                   ("redirect_uri", cfg.redirect_uri),
                   ("response_type", "code"),
                   ("scope", cfg.scope),
                   ("state", state)]
    session := { s with oauth_state := some state } }

/-- Handler of GET /callback, mirroring the source line by line.  The
oracles post and decodeIdTokenPayload stand for requests.post and for the
id-token payload decoding pipeline respectively. -/
def callback (cfg : OAuthConfig) (q : Query) (s : Session)
    (post : TokenRequest → Option TokenHttpResponse)
    (decodeIdTokenPayload : String → Option UserClaims) : CallbackResult :=
  -- if error: return ..., 400
  if truthy q.error then
    { response := .html 400 (authorizationErrorPage q.error q.error_description)
      session := s
      posts := [] }
  else
    -- stored_state = session.pop('oauth_state', None)
    let stored_state := s.oauth_state
    let s1 : Session := { s with oauth_state := none }
    -- if not state or state != stored_state: return ..., 403
    if !truthy q.state || stored_state != q.state then
      { response := .html 403 invalidStatePage, session := s1, posts := [] }
    -- if not code: return 'No authorization code received', 400
    else if !truthy q.code then
      { response := .html 400 "No authorization code received", session := s1, posts := [] }
    else
      let code := q.code.getD ""
      let req := token_data cfg code
      -- response = requests.post(...); any raise lands in the except-branch
      match post req with
      | none =>
        { response := .html 500 (tokenExchangeFailedPage "requests.post raised")
          session := s1
          posts := [req] }
      | some resp =>
        -- if response.status_code != 200: raise Exception(...)
        if resp.status_code != 200 then
          { response := .html 500 (tokenExchangeFailedPage (non200Message resp))
            session := s1
            posts := [req] }
        else
          -- token_response = response.json(); a parse failure raises
          match resp.body with
          | none =>
            { response := .html 500 (tokenExchangeFailedPage "response body was not valid JSON")
              session := s1
              posts := [req] }
          | some tb =>
            -- session['access_token'] = token_response.get('access_token')
            let s2 : Session := { s1 with access_token := some tb.access_token }
            -- if refresh_token: session['refresh_token'] = refresh_token
            let s3 : Session :=
              if truthy tb.refresh_token then { s2 with refresh_token := tb.refresh_token }
              else s2
            -- if id_token: decode payload and store claims; a raise lands in except
            if truthy tb.id_token then
              match decodeIdTokenPayload (tb.id_token.getD "") with
              | none =>
                { response := .html 500 (tokenExchangeFailedPage "id token payload could not be decoded")
                  session := s3
                  posts := [req] }
              | some payload =>
                let s4 : Session :=
                  { s3 with user := some { email := payload.email
                                           name := payload.name
                                           sub := payload.sub } }
                { response := .redirectTo "/", session := s4, posts := [req] }
            else
              { response := .redirectTo "/", session := s3, posts := [req] }

/-- Handler of GET /logout: session.clear() then redirect to /. -/
def logout (_s : Session) : Response × Session :=
  (Response.redirectTo "/", Session.empty)

/-- Handler of GET /api/profile: 401 JSON error when the access_token key
is absent from the session, else the protected-resource JSON with the
stored user claims. -/
def profile (s : Session) : Response :=
  match s.access_token with
  | none => Response.jsonError 401 "Not authenticated"
  | some _ => Response.profileJson "This is a protected resource" s.user

/-! Helper lemmas shared by the claim theorems. -/

/-- Any callback invocation that passes the provider-error check leaves the
session without an oauth_state key, in every branch. -/
theorem callback_clears_oauth_state (cfg : OAuthConfig) (q : Query) (s : Session)
    (post : TokenRequest → Option TokenHttpResponse)
    (dec : String → Option UserClaims)
    (herr : truthy q.error = false) :
    (callback cfg q s post dec).session.oauth_state = none := by
  simp only [callback, herr, Bool.false_eq_true, if_false]
  repeat' split
  all_goals rfl

/-- Any callback invocation on a session with no stored oauth_state that
passes the provider-error check answers 403. -/
theorem callback_no_stored_state_403 (cfg : OAuthConfig) (q : Query) (s : Session)
    (post : TokenRequest → Option TokenHttpResponse)
    (dec : String → Option UserClaims)
    (herr : truthy q.error = false)
    (hs : s.oauth_state = none) :
    (callback cfg q s post dec).response.status = 403 := by
  simp only [callback, herr, Bool.false_eq_true, if_false, hs]
  have hguard : (!truthy q.state || (none : Option String) != q.state) = true := by
    cases hq : q.state
    · simp [truthy]
    · simp [bne]
  simp [hguard, Response.status]

/-- A callback invocation that made an outbound POST must have passed the
error, state and code guards. -/
theorem callback_posts_ne_nil_guards (cfg : OAuthConfig) (q : Query) (s : Session)
    (post : TokenRequest → Option TokenHttpResponse) (dec : String → Option UserClaims)
    (h : (callback cfg q s post dec).posts ≠ []) :
    truthy q.error = false ∧
    (!truthy q.state || s.oauth_state != q.state) = false ∧
    (!truthy q.code) = false := by
  cases herr : truthy q.error with
  | true => exact absurd (by simp [callback, herr]) h
  | false =>
    cases hguard : (!truthy q.state || s.oauth_state != q.state) with
    | true => exact absurd (by simp [callback, herr, hguard]) h
    | false =>
      cases hcode : (!truthy q.code) with
      | true => exact absurd (by simp [callback, herr, hguard, hcode]) h
      | false => exact ⟨rfl, rfl, rfl⟩

/-- Past the three guards, the callback makes exactly the one POST built by
token_data, in every branch of the exchange. -/
theorem callback_posts_of_guards (cfg : OAuthConfig) (q : Query) (s : Session)
    (post : TokenRequest → Option TokenHttpResponse) (dec : String → Option UserClaims)
    (herr : truthy q.error = false)
    (hguard : (!truthy q.state || s.oauth_state != q.state) = false)
    (hcode : (!truthy q.code) = false) :
    (callback cfg q s post dec).posts = [token_data cfg (q.code.getD "")] := by
  simp only [callback, herr, hguard, hcode, Bool.false_eq_true, if_false]
  repeat' split
  all_goals rfl

/-- On a 200 token-endpoint response with a parseable JSON body, the
session the callback leaves holds exactly the fields read from that body:
the access_token value (possibly Python None), the refresh_token when
truthy, and the decoded id-token claims when the id token is present and
decodable. -/
theorem callback_session_tokens (cfg : OAuthConfig) (q : Query) (s : Session)
    (post : TokenRequest → Option TokenHttpResponse) (dec : String → Option UserClaims)
    (resp : TokenHttpResponse) (tb : TokenBody)
    (herr : truthy q.error = false)
    (hguard : (!truthy q.state || s.oauth_state != q.state) = false)
    (hcode : (!truthy q.code) = false)
    (hpost : post (token_data cfg (q.code.getD "")) = some resp)
    (h200 : resp.status_code = 200)
    (hbody : resp.body = some tb) :
    (callback cfg q s post dec).session.access_token = some tb.access_token ∧
    (truthy tb.refresh_token = true →
      (callback cfg q s post dec).session.refresh_token = tb.refresh_token) ∧
    (∀ p, truthy tb.id_token = true → dec (tb.id_token.getD "") = some p →
      (callback cfg q s post dec).session.user =
        some { email := p.email, name := p.name, sub := p.sub }) := by
  have h200b : (resp.status_code != 200) = false := by simp [h200]
  simp only [callback, herr, hguard, hcode, Bool.false_eq_true, if_false,
    hpost, h200b, hbody]
  refine ⟨?_, ?_, ?_⟩
  · repeat' split
    all_goals rfl
  · intro hrt
    simp only [hrt, if_true]
    repeat' split
    all_goals rfl
  · intro p hid hdec
    simp only [hid, hdec, if_true]

/-- Example configuration used by closed witness statements. -/
def cfgEx : OAuthConfig :=
  { client_id := "client-id", client_secret := "client-secret"
    redirect_uri := "https://app.example/callback"
    authorization_url := "https://as.example/authorize"
    token_url := "https://as.example/token"
    scope := "openid profile email" }

/-- Token-endpoint oracle that models the POST raising. -/
def postNone : TokenRequest → Option TokenHttpResponse := fun _ => none

/-- Id-token decoding oracle on which every payload is malformed. -/
def decNone : String → Option UserClaims := fun _ => none

/-- Example callback query that passes the error, state and code checks
against sEx; used by closed witness statements. -/
def qEx : Query :=
  { code := some "auth-code", state := some "st", error := none, error_description := none }

/-- Example session storing the anti-forgery token that qEx presents. -/
def sEx : Session :=
  { oauth_state := some "st", access_token := none, refresh_token := none, user := none }

/-- Token body a healthy example exchange returns. -/
def tbEx : TokenBody :=
  { access_token := some "AT", refresh_token := some "RT", id_token := some "h.p.s" }

/-- Token-endpoint oracle answering 200 with tbEx. -/
def postOK : TokenRequest → Option TokenHttpResponse :=
  fun _ => some { status_code := 200, text := "ok", body := some tbEx }

/-- Id-token decoding oracle answering a fixed claim set. -/
def decEx : String → Option UserClaims :=
  fun _ => some { email := some "a@example.org", name := some "A", sub := some "sub-1" }

/-- Token body with no access_token field, as in claim C8. -/
def tbNoAT : TokenBody :=
  { access_token := none, refresh_token := none, id_token := none }

/-- Token-endpoint oracle answering 200 with tbNoAT. -/
def post200NoAT : TokenRequest → Option TokenHttpResponse :=
  fun _ => some { status_code := 200, text := "ok", body := some tbNoAT }

/-- Token-endpoint oracle answering 200 with tokens plus an id token whose
payload will fail to decode, as in claim C10. -/
def postBadId : TokenRequest → Option TokenHttpResponse :=
  fun _ => some { status_code := 200, text := "ok",
                  body := some { access_token := some "AT", refresh_token := some "RT",
                                 id_token := some "not-a-jwt" } }

/-! Claim theorems. -/

/-- Counterexample to claim C1 as stated: a GET /callback request whose
state parameter is missing while the session stores an anti-forgery token,
but which also carries a provider error parameter, is answered 400, not
403 - the error check runs before the state check. -/
theorem claim_c1_counterexample :
    (callback cfgEx
      { code := none, state := none, error := some "access_denied", error_description := none }
      { oauth_state := some "tok", access_token := none, refresh_token := none, user := none }
      postNone decNone).response.status = 400 ∧
    (callback cfgEx
      { code := none, state := none, error := some "access_denied", error_description := none }
      { oauth_state := some "tok", access_token := none, refresh_token := none, user := none }
      postNone decNone).response.status ≠ 403 := by
  constructor
  · decide
  · decide

/-- Claim C1 (corrected): for every GET /callback request that carries no
non-empty error parameter, if the state parameter is missing (absent or
empty) or differs from the anti-forgery token stored in the session, the
handler responds with HTTP 403. -/
theorem claim_c1_bad_state_403 (cfg : OAuthConfig) (q : Query) (s : Session)
    (post : TokenRequest → Option TokenHttpResponse) (dec : String → Option UserClaims)
    (herr : truthy q.error = false)
    (hbad : truthy q.state = false ∨ s.oauth_state ≠ q.state) :
    (callback cfg q s post dec).response.status = 403 := by
  have hguard : (!truthy q.state || s.oauth_state != q.state) = true := by
    rcases hbad with h | h
    · simp [h]
    · simp [h]
  simp only [callback, herr, Bool.false_eq_true, if_false, hguard, if_true]
  rfl

/-- Witness for the amended C1: a request with no state parameter against a
session holding a stored token is answered 403. -/
theorem claim_c1_witness :
    (callback cfgEx
      { code := none, state := none, error := none, error_description := none }
      { oauth_state := some "tok", access_token := none, refresh_token := none, user := none }
      postNone decNone).response.status = 403 :=
  claim_c1_bad_state_403 cfgEx
    { code := none, state := none, error := none, error_description := none }
    { oauth_state := some "tok", access_token := none, refresh_token := none, user := none }
    postNone decNone (by decide) (Or.inl (by decide))

/-- Claim C3 (confirmed): every /callback invocation that reaches the state
check (that is, carries no provider error) removes the stored anti-forgery
token from the session, whether or not the comparison succeeds, so a second
/callback presenting the same state value is answered 403. -/
theorem claim_c3_state_single_use (cfg : OAuthConfig) (q : Query) (s : Session)
    (post : TokenRequest → Option TokenHttpResponse) (dec : String → Option UserClaims)
    (cfg2 : OAuthConfig) (q2 : Query)
    (post2 : TokenRequest → Option TokenHttpResponse) (dec2 : String → Option UserClaims)
    (h1 : truthy q.error = false) (h2 : truthy q2.error = false)
    (_h3 : q2.state = q.state) :
    (callback cfg q s post dec).session.oauth_state = none ∧
    (callback cfg2 q2 (callback cfg q s post dec).session post2 dec2).response.status = 403 :=
  ⟨callback_clears_oauth_state cfg q s post dec h1,
   callback_no_stored_state_403 cfg2 q2 _ post2 dec2 h2
     (callback_clears_oauth_state cfg q s post dec h1)⟩

/-- Witness for C3: a first callback that passes the state check pops the
token, and replaying the same request is answered 403. -/
theorem claim_c3_witness :
    (callback cfgEx qEx sEx postNone decNone).session.oauth_state = none ∧
    (callback cfgEx qEx (callback cfgEx qEx sEx postNone decNone).session
      postNone decNone).response.status = 403 :=
  claim_c3_state_single_use cfgEx qEx sEx postNone decNone cfgEx qEx postNone decNone
    (by decide) (by decide) rfl

/-- Claim C2 (confirmed): for every GET /callback request carrying a
non-empty error query parameter, the handler responds with HTTP 400 and
makes no outbound POST to the token endpoint. -/
theorem claim_c2_provider_error_400_no_post (cfg : OAuthConfig) (q : Query) (s : Session)
    (post : TokenRequest → Option TokenHttpResponse) (dec : String → Option UserClaims)
    (herr : truthy q.error = true) :
    (callback cfg q s post dec).response.status = 400 ∧
    (callback cfg q s post dec).posts = [] := by
  simp [callback, herr, Response.status]

/-- Witness for C2 at a concrete request carrying error=access_denied. -/
theorem claim_c2_witness :
    (callback cfgEx
      { code := none, state := none, error := some "access_denied", error_description := none }
      Session.empty postNone decNone).response.status = 400 ∧
    (callback cfgEx
      { code := none, state := none, error := some "access_denied", error_description := none }
      Session.empty postNone decNone).posts = [] :=
  claim_c2_provider_error_400_no_post cfgEx
    { code := none, state := none, error := some "access_denied", error_description := none }
    Session.empty postNone decNone (by decide)

/-- Claim C9 (confirmed): when /callback returns 400 because the request
carries a provider error parameter, the session is left entirely
unchanged; in particular the stored anti-forgery token is not removed. -/
theorem claim_c9_error_path_preserves_session (cfg : OAuthConfig) (q : Query) (s : Session)
    (post : TokenRequest → Option TokenHttpResponse) (dec : String → Option UserClaims)
    (herr : truthy q.error = true) :
    (callback cfg q s post dec).session = s := by
  simp [callback, herr]

/-- Witness for C9: the stored anti-forgery token survives the 400 path. -/
theorem claim_c9_witness :
    (callback cfgEx
      { code := none, state := some "tok", error := some "access_denied", error_description := none }
      { oauth_state := some "tok", access_token := none, refresh_token := none, user := none }
      postNone decNone).session =
    { oauth_state := some "tok", access_token := none, refresh_token := none, user := none } :=
  claim_c9_error_path_preserves_session cfgEx
    { code := none, state := some "tok", error := some "access_denied", error_description := none }
    { oauth_state := some "tok", access_token := none, refresh_token := none, user := none }
    postNone decNone (by decide)

/-- Claim C7 (confirmed): for every GET /logout request, regardless of the
prior session contents, the handler removes every session field
(anti-forgery token, access token, refresh token, user claims) and
redirects to /. -/
theorem claim_c7_logout_clears_session (s : Session) :
    (logout s).1 = Response.redirectTo "/" ∧
    (logout s).2.oauth_state = none ∧
    (logout s).2.access_token = none ∧
    (logout s).2.refresh_token = none ∧
    (logout s).2.user = none := by
  simp [logout, Session.empty]

/-- Claim C4 (confirmed): GET /api/profile answers 401 exactly when the
session holds no access_token key, and otherwise echoes the stored user
claims in the protected-resource body. -/
theorem claim_c4_profile_auth_gate (s : Session) :
    (s.access_token = none → profile s = Response.jsonError 401 "Not authenticated") ∧
    (s.access_token ≠ none →
      profile s = Response.profileJson "This is a protected resource" s.user) := by
  constructor
  · intro h
    simp [profile, h]
  · intro h
    cases hs : s.access_token with
    | none => exact absurd hs h
    | some v => simp [profile, hs]

/-- Witness for C4 on both sides of the gate: an empty session gets 401, a
session holding an access token gets the stored claims back. -/
theorem claim_c4_witness :
    profile Session.empty = Response.jsonError 401 "Not authenticated" ∧
    profile { oauth_state := none, access_token := some (some "AT"),
              refresh_token := none, user := none } =
      Response.profileJson "This is a protected resource" none :=
  ⟨(claim_c4_profile_auth_gate Session.empty).1 rfl,
   (claim_c4_profile_auth_gate
     { oauth_state := none, access_token := some (some "AT"),
       refresh_token := none, user := none }).2 (by simp)⟩

/-- Claim C5 (confirmed): whenever /callback performs the token exchange it
sends a single form-encoded POST to the configured token endpoint whose
body contains exactly grant_type=authorization_code, code, redirect_uri,
client_id and client_secret, and it reads access_token, refresh_token and
id_token from the JSON response body. -/
theorem claim_c5_exchange_wire_format (cfg : OAuthConfig) (q : Query) (s : Session)
    (post : TokenRequest → Option TokenHttpResponse) (dec : String → Option UserClaims)
    (h : (callback cfg q s post dec).posts ≠ []) :
    (callback cfg q s post dec).posts =
      [{ url := cfg.token_url
         body := [("grant_type", "authorization_code"),
                  ("code", q.code.getD ""),
                  ("redirect_uri", cfg.redirect_uri),
                  ("client_id", cfg.client_id),
                  ("client_secret", cfg.client_secret)] }] ∧
    (∀ resp tb, post (token_data cfg (q.code.getD "")) = some resp →
      resp.status_code = 200 → resp.body = some tb →
      (callback cfg q s post dec).session.access_token = some tb.access_token ∧
      (truthy tb.refresh_token = true →
        (callback cfg q s post dec).session.refresh_token = tb.refresh_token) ∧
      (∀ p, truthy tb.id_token = true → dec (tb.id_token.getD "") = some p →
        (callback cfg q s post dec).session.user =
          some { email := p.email, name := p.name, sub := p.sub })) := by
  obtain ⟨herr, hguard, hcode⟩ := callback_posts_ne_nil_guards cfg q s post dec h
  refine ⟨callback_posts_of_guards cfg q s post dec herr hguard hcode, ?_⟩
  intro resp tb hpost h200 hbody
  exact callback_session_tokens cfg q s post dec resp tb herr hguard hcode hpost h200 hbody

/-- Witness for C5: a concrete successful exchange posts exactly the
token_data form and stores the access token the endpoint returned. -/
theorem claim_c5_witness :
    (callback cfgEx qEx sEx postOK decEx).posts = [token_data cfgEx "auth-code"] ∧
    (callback cfgEx qEx sEx postOK decEx).session.access_token = some (some "AT") :=
  ⟨(claim_c5_exchange_wire_format cfgEx qEx sEx postOK decEx (by decide)).1,
   ((claim_c5_exchange_wire_format cfgEx qEx sEx postOK decEx (by decide)).2
      { status_code := 200, text := "ok", body := some tbEx } tbEx rfl rfl rfl).1⟩

/-- Claim C6 (confirmed): a /callback request on which the token exchange
fails - non-200 endpoint status, unparseable response body, or undecodable
id-token payload - is answered 500, and exactly one POST was made, so the
exchange is never retried within the request. -/
theorem claim_c6_exchange_failure_500 (cfg : OAuthConfig) (q : Query) (s : Session)
    (post : TokenRequest → Option TokenHttpResponse) (dec : String → Option UserClaims)
    (hreach : (callback cfg q s post dec).posts ≠ [])
    (hfail : ∀ resp, post (token_data cfg (q.code.getD "")) = some resp →
      resp.status_code ≠ 200 ∨ resp.body = none ∨
      ∃ tb, resp.body = some tb ∧ truthy tb.id_token = true ∧
        dec (tb.id_token.getD "") = none) :
    (callback cfg q s post dec).response.status = 500 ∧
    (callback cfg q s post dec).posts.length = 1 := by
  obtain ⟨herr, hguard, hcode⟩ := callback_posts_ne_nil_guards cfg q s post dec hreach
  cases hpost : post (token_data cfg (q.code.getD "")) with
  | none =>
    simp only [callback, herr, hguard, hcode, Bool.false_eq_true, if_false, hpost]
    exact ⟨rfl, rfl⟩
  | some resp =>
    rcases hfail resp hpost with h | h | ⟨tb, hbody, hid, hdec⟩
    · have hne : (resp.status_code != 200) = true := by simp [h]
      simp only [callback, herr, hguard, hcode, Bool.false_eq_true, if_false, hpost,
        hne, if_true]
      exact ⟨rfl, rfl⟩
    · by_cases h200 : resp.status_code = 200
      · have heq : (resp.status_code != 200) = false := by simp [h200]
        simp only [callback, herr, hguard, hcode, Bool.false_eq_true, if_false, hpost,
          heq, h]
        exact ⟨rfl, rfl⟩
      · have hne : (resp.status_code != 200) = true := by simp [h200]
        simp only [callback, herr, hguard, hcode, Bool.false_eq_true, if_false, hpost,
          hne, if_true]
        exact ⟨rfl, rfl⟩
    · by_cases h200 : resp.status_code = 200
      · have heq : (resp.status_code != 200) = false := by simp [h200]
        simp only [callback, herr, hguard, hcode, Bool.false_eq_true, if_false, hpost,
          heq, hbody, hid, hdec, if_true]
        exact ⟨rfl, rfl⟩
      · have hne : (resp.status_code != 200) = true := by simp [h200]
        simp only [callback, herr, hguard, hcode, Bool.false_eq_true, if_false, hpost,
          hne, if_true]
        exact ⟨rfl, rfl⟩

/-- Witness for C6: a 400 token-endpoint answer produces the 500 page after
a single POST. -/
theorem claim_c6_witness :
    (callback cfgEx qEx sEx
      (fun _ => some { status_code := 400, text := "invalid_grant", body := none })
      decNone).response.status = 500 ∧
    (callback cfgEx qEx sEx
      (fun _ => some { status_code := 400, text := "invalid_grant", body := none })
      decNone).posts.length = 1 :=
  claim_c6_exchange_failure_500 cfgEx qEx sEx
    (fun _ => some { status_code := 400, text := "invalid_grant", body := none })
    decNone (by decide)
    (fun resp hresp => by
      rw [Option.some_inj] at hresp
      exact Or.inl (by rw [← hresp]; decide))

/-- Claim C8 (confirmed): when the token endpoint answers 200 with a JSON
body lacking the access_token field, the callback still stores the
access_token key with Python None as its value, so a subsequent GET
/api/profile is answered 200 rather than 401. -/
theorem claim_c8_none_token_defeats_profile_gate (cfg : OAuthConfig) (q : Query) (s : Session)
    (post : TokenRequest → Option TokenHttpResponse) (dec : String → Option UserClaims)
    (resp : TokenHttpResponse) (tb : TokenBody)
    (hreach : (callback cfg q s post dec).posts ≠ [])
    (hpost : post (token_data cfg (q.code.getD "")) = some resp)
    (h200 : resp.status_code = 200)
    (hbody : resp.body = some tb)
    (hnone : tb.access_token = none) :
    (callback cfg q s post dec).session.access_token = some none ∧
    (profile (callback cfg q s post dec).session).status = 200 := by
  obtain ⟨herr, hguard, hcode⟩ := callback_posts_ne_nil_guards cfg q s post dec hreach
  have hat :=
    (callback_session_tokens cfg q s post dec resp tb herr hguard hcode hpost h200 hbody).1
  rw [hnone] at hat
  refine ⟨hat, ?_⟩
  simp [profile, hat, Response.status]

/-- Witness for C8 at a concrete 200 response with no access_token. -/
theorem claim_c8_witness :
    (callback cfgEx qEx sEx post200NoAT decNone).session.access_token = some none ∧
    (profile (callback cfgEx qEx sEx post200NoAT decNone).session).status = 200 :=
  claim_c8_none_token_defeats_profile_gate cfgEx qEx sEx post200NoAT decNone
    { status_code := 200, text := "ok", body := some tbNoAT } tbNoAT
    (by decide) rfl rfl rfl rfl

/-- Claim C10 (confirmed): the 500 token-exchange-failure response is not
atomic with respect to the session: at this input - a 200 token response
whose access_token and refresh_token are present but whose id_token payload
fails to decode - the callback answers 500 with the access token and
refresh token already written into the session. -/
theorem claim_c10_500_after_session_write :
    (callback cfgEx qEx sEx postBadId decNone).response.status = 500 ∧
    (callback cfgEx qEx sEx postBadId decNone).session.access_token = some (some "AT") ∧
    (callback cfgEx qEx sEx postBadId decNone).session.refresh_token = some "RT" := by
  refine ⟨?_, ?_, ?_⟩ <;> decide

end BasicOAuth
